import Mathlib

/-!
Shallow embedding of the VCPToolBox WebSocket hub (`src/WebSocketServer.js`)
and the Gemini Live streaming proxy (`modules/GeminiLiveProxy.js`,
`src/unnamed/part_000`), with theorems settling the spec claims about them.

JavaScript `Map`s are modelled as association lists with `Map` semantics
(`set` replaces in place, `delete` removes the key), machine-level JSON
values as a small inductive `JSVal`, and JS truthiness/`||`/`??` as the
explicit helpers below.
-/

namespace VCP

/-- A small model of JSON-ish JavaScript values carried opaquely through the
hub (tool results, arguments, message payload fields). -/
inductive JSVal where
  | undef
  | null
  | bool (b : Bool)
  | num (n : Int)
  | str (s : String)
deriving DecidableEq, Repr

/-- JS falsiness on `JSVal` (`undefined`, `null`, `false`, `0`, `""`). -/
def jsFalsy : JSVal → Bool
  | .undef => true
  | .null => true
  | .bool b => !b
  | .num n => n == 0
  | .str s => s == ""

/-- JS `a || d` for an optionally-present string field (`none` = absent /
`undefined`; the empty string is falsy). -/
def jsOrS (a : Option String) (d : String) : String :=
  match a with
  | none => d
  | some s => if s == "" then d else s

/-- JS `a || b` for optionally-present value fields. -/
def jsOrV (a b : Option JSVal) : Option JSVal :=
  match a with
  | none => b
  | some v => if jsFalsy v then b else v

/-- JS `a || d` for an optionally-present numeric field (`0` is falsy). -/
def jsOrNat (a : Option Nat) (d : Nat) : Nat :=
  match a with
  | none => d
  | some n => if n == 0 then d else n

/-- JS truthiness of an optionally-set string variable such as
`serverConfig.vcpKey` (`null`/absent and `""` are falsy). -/
def jsTruthyOpt (o : Option String) : Bool :=
  match o with
  | none => false
  | some s => s != ""

/-- A JavaScript `Map` keyed by strings, as an association list in insertion
order. -/
abbrev Table (α : Type) := List (String × α)

/-- `Map.get`: the value stored under `k`, if any (first match). -/
def lookupT : Table α → String → Option α
  | [], _ => none
  | p :: rest, k => if p.1 == k then some p.2 else lookupT rest k

/-- `Map.delete k`: removes the entry stored under `k` (keys are unique in
a JS `Map`, so removing every match coincides with removing the entry). -/
def eraseT : Table α → String → Table α
  | [], _ => []
  | p :: rest, k => if p.1 == k then eraseT rest k else p :: eraseT rest k

/-- `Map.set k v`: replaces in place if `k` is present, else appends. -/
def setT : Table α → String → α → Table α
  | [], k, v => [(k, v)]
  | p :: rest, k, v => if p.1 == k then (k, v) :: rest else p :: setT rest k v

/-! ## Pending-request correlation (RPC broker)

`src/WebSocketServer.js` keeps `pendingToolRequests` (distributed tool
calls) and `pendingChromeCommands` (Chrome commands): maps from a request
ID to `{ resolve, reject, timeout }`.  The continuations are the caller's
promise; which one fires, and with what, is the observable `Settlement`
below.  The timer handle is kept so that `clearTimeout` is visible in the
model's output. -/

/-- The observable way a pending request's promise is settled. -/
inductive Settlement (α : Type) where
  | resolved (v : α)
  | rejected (msg : String)
deriving DecidableEq, Repr

/-- One `{ resolve, reject, timeout }` entry of a pending-request table
(continuations are implicit; the timer handle is explicit). -/
structure PendingEntry where
  timerId : Nat
deriving DecidableEq, Repr

/-- The `data` of a `{type:'tool_result'}` message from a distributed
server. -/
structure ToolResultData where
  requestId : String
  status : String
  result : JSVal
  error : Option String
deriving DecidableEq, Repr

/-- The `data` of a `{type:'command_result'}` message from the Chrome
observer client. -/
structure CommandResultData where
  requestId : String
  status : String
  result : Option JSVal
  message : Option JSVal
  error : Option String
deriving DecidableEq, Repr

/-- The object a successful Chrome command resolves with:
`{ status: 'success', result: data.result || data.message }`. -/
structure ChromeReply where
  status : String
  result : Option JSVal
deriving DecidableEq, Repr

/-- `case 'tool_result'` of `handleDistributedServerMessage`
(`src/WebSocketServer.js:299-310`): look up the pending entry by request
ID; if present, clear its timer, resolve with `data.result` on
`status === 'success'` or reject with `data.error ||
'Distributed tool execution failed.'`, and delete the entry; if absent,
do nothing.  Returns the new table and, when a settlement happened, the
cleared timer handle together with the settlement. -/
def handleToolResult (tbl : Table PendingEntry) (d : ToolResultData) :
    Table PendingEntry × Option (Nat × Settlement JSVal) :=
  match lookupT tbl d.requestId with
  | none => (tbl, none)
  | some pending =>
    (eraseT tbl d.requestId,
      some (pending.timerId,
        if d.status == "success" then
          .resolved d.result
        else
          .rejected (jsOrS d.error "Distributed tool execution failed.")))

/-- The `command_result` branch of the ChromeObserver message handler
(`src/WebSocketServer.js:144-155`), after its guard
(`type === 'command_result' && data && data.requestId`) has passed:
identical settle-once structure, resolving with
`{ status:'success', result: data.result || data.message }` or rejecting
with `data.error || 'Chrome extension returned an error.'`. -/
def handleCommandResult (tbl : Table PendingEntry) (d : CommandResultData) :
    Table PendingEntry × Option (Nat × Settlement ChromeReply) :=
  match lookupT tbl d.requestId with
  | none => (tbl, none)
  | some pending =>
    (eraseT tbl d.requestId,
      some (pending.timerId,
        if d.status == "success" then
          .resolved { status := "success", result := jsOrV d.result d.message }
        else
          .rejected (jsOrS d.error "Chrome extension returned an error.")))

/-- The `setTimeout` callback of `executeDistributedTool`
(`src/WebSocketServer.js:377-380`): delete the table entry, then reject
with the timeout message naming the tool, the server and the elapsed
seconds. -/
def toolTimeoutExpire (tbl : Table PendingEntry)
    (requestId toolName serverIdOrName : String) (effectiveTimeout : Nat) :
    Table PendingEntry × Settlement JSVal :=
  (eraseT tbl requestId,
    .rejected ("Request to distributed tool " ++ toolName ++ " on server "
      ++ serverIdOrName ++ " timed out after "
      ++ toString (effectiveTimeout / 1000) ++ "s."))

/-- The `setTimeout` callback of `sendCommandToChrome`
(`src/WebSocketServer.js:332-335`). -/
def chromeTimeoutExpire (tbl : Table PendingEntry)
    (requestId : String) (timeout : Nat) :
    Table PendingEntry × Settlement ChromeReply :=
  (eraseT tbl requestId,
    .rejected ("Command request to Chrome timed out after "
      ++ toString (timeout / 1000) ++ "s."))

/-! ## Distributed server registry -/

/-- `WebSocket.OPEN` readyState constant. -/
def WS_OPEN : Nat := 1

/-- One entry of the `distributedServers` map: the socket (modelled by its
`readyState`), the registered tool-name list, and the display name set
lazily by `report_ip`. -/
structure ServerEntry where
  wsReadyState : Nat
  serverName : Option String
  tools : List String
deriving DecidableEq, Repr

/-- One element of `message.data.tools` in a `register_tools` message: the
manifest fields besides `name` are opaque. -/
structure ToolDecl where
  name : String
  manifest : JSVal
deriving DecidableEq, Repr

/-- `case 'register_tools'` of `handleDistributedServerMessage`
(`src/WebSocketServer.js:270-280`): if the server entry exists (and the
message carries a tools array), filter out the reserved
`internal_request_file` tool, hand the filtered list to
`pluginManager.registerDistributedTools`, and replace the stored tool-name
list with the filtered names.  Returns the new `distributedServers` table
and the list passed to the catalog (`none` when nothing happened). -/
def handleRegisterTools (servers : Table ServerEntry) (serverId : String)
    (tools : List ToolDecl) : Table ServerEntry × Option (List ToolDecl) :=
  match lookupT servers serverId with
  | none => (servers, none)
  | some entry =>
    let externalTools := tools.filter (fun t => t.name != "internal_request_file")
    (setT servers serverId { entry with tools := externalTools.map (·.name) },
      some externalTools)

/-- Server resolution in `executeDistributedTool`
(`src/WebSocketServer.js:350-360`): try the ID lookup first; if that
fails, scan the map in insertion order for an entry whose `serverName`
equals the argument. -/
def resolveServer (servers : Table ServerEntry) (serverIdOrName : String) :
    Option ServerEntry :=
  match lookupT servers serverIdOrName with
  | some s => some s
  | none =>
    (servers.find? (fun p => p.2.serverName == some serverIdOrName)).map (·.2)

/-- The `{type:'execute_tool'}` envelope sent to the resolved server. -/
structure ExecutePayload where
  requestId : String
  toolName : String
  toolArgs : JSVal
deriving DecidableEq, Repr

/-- `executeDistributedTool(serverIdOrName, toolName, toolArgs, timeout)`
(`src/WebSocketServer.js:344-387`) up to the point where the promise is
pending: the manifest timeout lookup (`plugin?.communication?.timeout`)
is the abstract `getPluginTimeout`, the generated request ID and timer
handle are parameters.  Returns either the synchronous rejection message
(nothing sent, no table change) or the new pending table, the sent
payload, and the effective timeout armed on the timer. -/
def executeDistributedTool (getPluginTimeout : String → Option Nat)
    (servers : Table ServerEntry) (tbl : Table PendingEntry)
    (serverIdOrName toolName : String) (toolArgs : JSVal)
    (timeout : Option Nat) (requestId : String) (timerId : Nat) :
    Except String (Table PendingEntry × ExecutePayload × Nat) :=
  let defaultTimeout := jsOrNat (getPluginTimeout toolName) 60000
  let effectiveTimeout := timeout.getD defaultTimeout
  match resolveServer servers serverIdOrName with
  | none =>
    .error ("Distributed server " ++ serverIdOrName ++ " is not connected or ready.")
  | some server =>
    if server.wsReadyState == WS_OPEN then
      .ok (setT tbl requestId { timerId := timerId },
        { requestId := requestId, toolName := toolName, toolArgs := toolArgs },
        effectiveTimeout)
    else
      .error ("Distributed server " ++ serverIdOrName ++ " is not connected or ready.")

/-! ## Authentication and upgrade router -/

/-- The relevant part of `serverConfig` (`vcpKey` defaults to `null`). -/
structure UpgradeConfig where
  vcpKey : Option String
deriving DecidableEq, Repr

/-- The three accepted WebSocket client types. -/
inductive ClientType where
  | VCPLog
  | DistributedServer
  | ChromeObserver
deriving DecidableEq, Repr

/-- Outcome of an HTTP upgrade request: either the handshake proceeds for
a recognized client type carrying the given key, or the raw socket is
destroyed with nothing sent. -/
inductive UpgradeResult where
  | accepted (ty : ClientType) (key : String)
  | destroyed
deriving DecidableEq, Repr

/-- JS regex `.`: any character except a line terminator. -/
def jsDotMatches (c : Char) : Bool :=
  c != Char.ofNat 10 && c != Char.ofNat 13
    && c != Char.ofNat 0x2028 && c != Char.ofNat 0x2029

/-- Strips a literal head off a character list, returning the remainder
when the head matches. -/
def stripHead : List Char → List Char → Option (List Char)
  | [], rest => some rest
  | _, [] => none
  | a :: as, b :: bs => if a = b then stripHead as bs else none

/-- Matching one of the templates `^\/...\/VCP_Key=(.+)$` against the raw
pathname (node's legacy `url.parse` leaves the pathname percent-encoded):
the key group is everything after the literal template head, non-empty
and free of line terminators. -/
def matchKeyPath (pre pathname : String) : Option String :=
  match stripHead pre.data pathname.data with
  | none => none
  | some rest =>
    if rest.isEmpty then none
    else if rest.all jsDotMatches then some (String.mk rest) else none

/-- The template matching order of the upgrade handler
(`src/WebSocketServer.js:50-78`): VCPLog, then distributed server, then
Chrome observer. -/
def pathMatch (pathname : String) : Option (ClientType × String) :=
  match matchKeyPath "/VCPlog/VCP_Key=" pathname with
  | some k => some (.VCPLog, k)
  | none =>
    match matchKeyPath "/vcp-distributed-server/VCP_Key=" pathname with
    | some k => some (.DistributedServer, k)
    | none =>
      match matchKeyPath "/vcp-chrome-observer/VCP_Key=" pathname with
      | some k => some (.ChromeObserver, k)
      | none => none

/-- The upgrade handler (`src/WebSocketServer.js:46-90`): unmatched paths
destroy the socket; matched paths authenticate by
`serverConfig.vcpKey && connectionKey === serverConfig.vcpKey`, literal
string comparison of the raw key segment. -/
def routeUpgrade (cfg : UpgradeConfig) (pathname : String) : UpgradeResult :=
  match pathMatch pathname with
  | none => .destroyed
  | some (ty, connectionKey) =>
    if jsTruthyOpt cfg.vcpKey && (cfg.vcpKey == some connectionKey) then
      .accepted ty connectionKey
    else
      .destroyed

/-- Modelled from the spec: the spec claims the embedded key segment is
URL-decoded before comparison; this percent-decoder follows those words
(`%XX` pairs become the coded character, malformed escapes pass through)
and exists only to compare against the source behaviour. -/
def specUrlDecodeAux : List Char → List Char
  | [] => []
  | '%' :: a :: b :: rest =>
    match isHex a, isHex b with
    | true, true =>
      Char.ofNat (16 * hexDigitVal a + hexDigitVal b) :: specUrlDecodeAux rest
    | _, _ => '%' :: specUrlDecodeAux (a :: b :: rest)
  | c :: rest => c :: specUrlDecodeAux rest
where
  isHex (c : Char) : Bool :=
    c.isDigit || (97 ≤ c.toNat && c.toNat ≤ 102)
      || (65 ≤ c.toNat && c.toNat ≤ 70)
  hexDigitVal (c : Char) : Nat :=
    if c.isDigit then c.toNat - 48
    else if 97 ≤ c.toNat then c.toNat - 87
    else c.toNat - 55

/-- Modelled from the spec: URL-decoding of a path segment. -/
def specUrlDecode (s : String) : String :=
  String.mk (specUrlDecodeAux s.data)

/-! ## Streaming proxy session (`GeminiLiveProxy`) -/

/-- A raw WebSocket frame: opaque binary bytes or a text payload.  JSON
parsing of a frame is kept abstract (a `parse` parameter of the
handlers), since only its success or failure and the recognized
top-level fields matter. -/
inductive Frame where
  | binary (bytes : List Nat)
  | text (s : String)
deriving DecidableEq, Repr

/-- A part of a setup `systemInstruction.parts` list: the injected entry
is `{ text: ... }`; caller-provided parts pass through untouched. -/
inductive SetupPart where
  | text (s : String)
  | otherPart (v : JSVal)
deriving DecidableEq, Repr

/-- `systemInstruction` of a setup payload. -/
structure SystemInstruction where
  parts : Option (List SetupPart)
deriving DecidableEq, Repr

/-- A function declaration carried in a tools entry (opaque). -/
abbrev FuncDecl := JSVal

/-- One entry of a setup `tools` array. -/
structure SetupTool where
  functionDeclarations : Option (List FuncDecl)
deriving DecidableEq, Repr

/-- A setup payload: the two fields the proxy rewrites, plus every other
field (`rest`), spread-preserved by `{ ...originalSetup, ... }`. -/
structure Setup where
  systemInstruction : Option SystemInstruction
  tools : Option (List SetupTool)
  rest : List (String × JSVal)
deriving DecidableEq, Repr

/-- A parsed client-to-proxy frame: only the presence of a truthy `setup`
field matters to `handleClientMessage`. -/
structure ClientMsg where
  setup : Option Setup
deriving DecidableEq, Repr

/-- The environment read by `injectVCPContext`: wall-clock string, the
`VarCity`/`VarUser` environment variables, and the
`VCPWeatherInfo` placeholder (each `none` when absent). -/
structure VCPEnv where
  timeNow : String
  varCity : Option String
  varUser : Option String
  weatherInfo : Option String
deriving DecidableEq, Repr

/-- The `vcpPrompt` template literal of `injectVCPContext`
(`src/unnamed/part_000:204-219`). -/
def vcpPromptText (timeNow city user weather : String) : String :=
  "\n[System Context]\nCurrent Time: " ++ timeNow
    ++ "\nLocation: " ++ city
    ++ "\nUser: " ++ user
    ++ "\nWeather: " ++ weather
    ++ "\n\n[VCP Capability Injection]\n"
    ++ "You are connected to the VCP (Virtual Character Platform) Core.\n"
    ++ "You have DIRECT access to the user\x27s memories (Diaries), computer control, and advanced reasoning.\n"
    ++ "CRITICAL INSTRUCTION:\n"
    ++ "1. If the user asks about past events, memories, or specific details, you MUST use the \x27search_memory\x27 tool immediately. Do not say \"I don\x27t know\" without checking memory first.\n"
    ++ "2. If the user asks for complex reasoning or creative writing, use \x27perform_meta_thinking\x27.\n"
    ++ "3. You can control the PC via \x27ChromeControl\x27 or write diaries via \x27DailyNoteWrite\x27.\n"
    ++ "Be proactive. If you hear something that triggers a memory association, use the tool.\n"

/-- `injectVCPContext(originalSetup)` (`src/unnamed/part_000:190-249`):
prepend the VCP prompt to the existing system-instruction parts, flatten
the caller's tool declarations and append the VCP tool declarations
(`vcpTools`, the abstract `GeminiToolsAdapter.getAllToolDeclarations()`),
and spread-merge back over the original setup. -/
def injectVCPContext (env : VCPEnv) (vcpTools : List FuncDecl)
    (originalSetup : Setup) : Setup :=
  let systemInstruction := originalSetup.systemInstruction.getD { parts := none }
  let parts := systemInstruction.parts.getD []
  let city := jsOrS env.varCity "Unknown City"
  let user := jsOrS env.varUser "User"
  let weather := jsOrS env.weatherInfo "Weather unavailable"
  let vcpPrompt := vcpPromptText env.timeNow city user weather
  let parts2 := SetupPart.text vcpPrompt :: parts
  let existingTools := originalSetup.tools.getD []
  let mergedFunctionDeclarations :=
    (existingTools.map (fun t => t.functionDeclarations.getD [])).flatten ++ vcpTools
  { originalSetup with
    systemInstruction := some { parts := some parts2 },
    tools := some [{ functionDeclarations := some mergedFunctionDeclarations }] }

/-- What `handleClientMessage` sends to the upstream socket: the original
raw frame, or the re-serialized `{ setup: modifiedSetup }`. -/
inductive ClientUpSend where
  | raw (f : Frame)
  | setupFrame (st : Setup)
deriving DecidableEq, Repr

/-- `handleClientMessage(data)` (`src/unnamed/part_000:76-127`): frames
that fail JSON parsing are forwarded verbatim; parsed frames with a
truthy `setup` field are intercepted, injected (`inj`, which may throw:
`Except.error`) and re-sent as `{ setup: modified }`; any other parsed
frame is forwarded verbatim; any exception falls back to forwarding the
original raw frame.  `parse` abstracts `JSON.parse` on the frame. -/
def handleClientMessage (parse : Frame → Option ClientMsg)
    (inj : Setup → Except String Setup) (frame : Frame) : List ClientUpSend :=
  match parse frame with
  | none => [.raw frame]
  | some msg =>
    match msg.setup with
    | some st =>
      match inj st with
      | .ok modifiedSetup => [.setupFrame modifiedSetup]
      | .error _ => [.raw frame]
    | none => [.raw frame]

/-- The upstream sends of a whole session: the client frames are handled
statelessly, one after the other (the proxy keeps no setup flag). -/
def sessionUpstreamSends (parse : Frame → Option ClientMsg)
    (inj : Setup → Except String Setup) (frames : List Frame) :
    List ClientUpSend :=
  (frames.map (handleClientMessage parse inj)).flatten

/-- One element of `toolCall.functionCalls` in an upstream frame. -/
structure FunctionCall where
  id : JSVal
  name : String
  args : JSVal
deriving DecidableEq, Repr

/-- The `toolCall` field of a parsed upstream frame. -/
structure ToolCallField where
  functionCalls : Option (List FunctionCall)
deriving DecidableEq, Repr

/-- A parsed upstream-to-proxy frame: only a truthy `toolCall` matters. -/
structure UpstreamMsg where
  toolCall : Option ToolCallField
deriving DecidableEq, Repr

/-- One element of the aggregated `toolResponse.functionResponses`. -/
structure FuncResponse where
  id : JSVal
  name : String
  result : JSVal
deriving DecidableEq, Repr

/-- What `handleUpstreamMessage` sends to the upstream socket. -/
inductive UpstreamSend where
  | toolResponse (rs : List FuncResponse)
deriving DecidableEq, Repr

/-- The sequential tool loop of `handleUpstreamMessage`
(`src/unnamed/part_000:140-149`): execute each call in batch order
through the stateful facade `exec` (state threading captures the
strictly sequential `await`), collecting `{id, name, response:{result}}`
per call in the same order. -/
def runCalls (exec : σ → FunctionCall → σ × JSVal) :
    σ → List FunctionCall → σ × List FuncResponse
  | s, [] => (s, [])
  | s, call :: rest =>
    let r := exec s call
    let t := runCalls exec r.1 rest
    (t.1, { id := call.id, name := call.name, result := r.2 } :: t.2)

/-- The facade state after executing a list of calls in order. -/
def execStateAfter (exec : σ → FunctionCall → σ × JSVal) (s : σ)
    (calls : List FunctionCall) : σ :=
  calls.foldl (fun st c => (exec st c).1) s

/-- `handleUpstreamMessage(data)` (`src/unnamed/part_000:129-188`): parse
failure forwards the raw frame to the client; a truthy `toolCall` with a
non-empty `functionCalls` runs the tool loop, sends one aggregated
`toolResponse` frame upstream and nothing to the client; every other
frame is forwarded to the client verbatim.  Returns the final facade
state, the upstream sends, and the client sends. -/
def handleUpstreamMessage (parse : Frame → Option UpstreamMsg)
    (exec : σ → FunctionCall → σ × JSVal) (s : σ) (frame : Frame) :
    σ × List UpstreamSend × List Frame :=
  match parse frame with
  | none => (s, [], [frame])
  | some msg =>
    match msg.toolCall with
    | some tc =>
      match tc.functionCalls with
      | some functionCalls =>
        if functionCalls.length > 0 then
          let t := runCalls exec s functionCalls
          (t.1, [.toolResponse t.2], [])
        else (s, [], [frame])
      | none => (s, [], [frame])
    | none => (s, [], [frame])

/-- A `ws.close(...)` call made by the proxy session: with explicit code
and reason, or bare `close()`. -/
inductive CloseCall where
  | withCode (code : Nat) (reason : String)
  | plain
deriving DecidableEq, Repr

/-- A close event of one of the two session sockets. -/
inductive CloseEvent where
  | upstreamClosed (code : Nat) (reason : String)
  | clientClosed (code : Nat) (reason : String)
deriving DecidableEq, Repr

/-- The close calls the session issues in reaction to a close event. -/
structure CloseEffect where
  clientClose : Option CloseCall
  upstreamClose : Option CloseCall
deriving DecidableEq, Repr

/-- The close handlers wired in `init()` (`src/unnamed/part_000:56-69`):
an upstream close calls `clientWs.close(code, reason)`; a client close
calls `upstreamWs.close()` with no arguments, and only when the upstream
socket is currently open. -/
def onSocketClose (upstreamReadyState : Nat) : CloseEvent → CloseEffect
  | .upstreamClosed code reason =>
    { clientClose := some (.withCode code reason), upstreamClose := none }
  | .clientClosed _ _ =>
    { clientClose := none,
      upstreamClose :=
        if upstreamReadyState == WS_OPEN then some .plain else none }

/-! ## Concrete instances used by witnesses and counterexamples -/

/-- A one-call tool batch for exercising the upstream tool loop. -/
def c2calls : List FunctionCall :=
  [{ id := .str "1", name := "X", args := .null }]

/-- An upstream message carrying `c2calls` under `toolCall`. -/
def c2msg : UpstreamMsg := { toolCall := some { functionCalls := some c2calls } }

/-- A concrete upstream parse accepting exactly the `TC` text frame. -/
def c2parse : Frame → Option UpstreamMsg :=
  fun f => if f = .text "TC" then some c2msg else none

/-- A concrete stateful facade: counts calls, returns the old count. -/
def c2exec : Nat → FunctionCall → Nat × JSVal :=
  fun n _ => (n + 1, .num (Int.ofNat n))

/-- A caller-provided setup payload with no fields set. -/
def c3setup : Setup := { systemInstruction := none, tools := none, rest := [] }

/-- A visibly different setup payload standing for the transform output. -/
def c3marked : Setup :=
  { systemInstruction := none, tools := none, rest := [("marked", .bool true)] }

/-- A concrete client parse accepting exactly the `SETUP` text frame as a
message with a setup field. -/
def c3parse : Frame → Option ClientMsg :=
  fun f => if f = .text "SETUP" then some { setup := some c3setup } else none

/-- A concrete injection transform mapping every setup to `c3marked`. -/
def c3inj : Setup → Except String Setup := fun _ => .ok c3marked

/-- The system-instruction parts list of a setup payload, with the same
`|| {}` / `|| []` defaulting the transform applies. -/
def setupPartsOf (s : Setup) : List SetupPart :=
  (s.systemInstruction.getD { parts := none }).parts.getD []

/-! ## Library lemmas on the table model -/

theorem lookupT_eraseT_self (tbl : Table α) (k : String) :
    lookupT (eraseT tbl k) k = none := by
  induction tbl with
  | nil => rfl
  | cons p rest ih =>
    by_cases h : p.1 == k
    · simpa [eraseT, h] using ih
    · simp only [eraseT, h, if_false]
      simpa [lookupT, h] using ih

theorem lookupT_eq_none_iff (tbl : Table α) (k : String) :
    lookupT tbl k = none ↔ ∀ p ∈ tbl, p.1 ≠ k := by
  induction tbl with
  | nil => simp [lookupT]
  | cons p rest ih =>
    by_cases h : p.1 == k
    · simp [lookupT, h, beq_iff_eq.mp h]
    · simp only [lookupT, List.mem_cons]
      rw [if_neg (by simpa using h), ih]
      constructor
      · intro hall q hq
        rcases hq with hq | hq
        · subst hq
          exact fun hh => absurd (beq_iff_eq.mpr hh) (by simpa using h)
        · exact hall q hq
      · intro hall q hq
        exact hall q (Or.inr hq)

theorem lookupT_setT_self (tbl : Table α) (k : String) (v : α) :
    lookupT (setT tbl k v) k = some v := by
  induction tbl with
  | nil => simp [setT, lookupT]
  | cons p rest ih =>
    by_cases h : p.1 == k
    · simp [setT, h, lookupT]
    · simp only [setT, h, if_false]
      simpa [lookupT, h] using ih

theorem handleToolResult_absent (tbl : Table PendingEntry)
    (d : ToolResultData) (h : lookupT tbl d.requestId = none) :
    handleToolResult tbl d = (tbl, none) := by
  simp [handleToolResult, h]

theorem handleCommandResult_absent (tbl : Table PendingEntry)
    (d : CommandResultData) (h : lookupT tbl d.requestId = none) :
    handleCommandResult tbl d = (tbl, none) := by
  simp [handleCommandResult, h]

theorem handleToolResult_found (tbl : Table PendingEntry)
    (d : ToolResultData) (e : PendingEntry)
    (h : lookupT tbl d.requestId = some e) :
    (handleToolResult tbl d).2.isSome := by
  simp [handleToolResult, h]

theorem handleCommandResult_found (tbl : Table PendingEntry)
    (d : CommandResultData) (e : PendingEntry)
    (h : lookupT tbl d.requestId = some e) :
    (handleCommandResult tbl d).2.isSome := by
  simp [handleCommandResult, h]

theorem handleToolResult_lookup_fst (tbl : Table PendingEntry)
    (d : ToolResultData) :
    lookupT (handleToolResult tbl d).1 d.requestId = none := by
  unfold handleToolResult
  cases h : lookupT tbl d.requestId with
  | none => simpa using h
  | some e => simpa using lookupT_eraseT_self tbl d.requestId

theorem handleCommandResult_lookup_fst (tbl : Table PendingEntry)
    (d : CommandResultData) :
    lookupT (handleCommandResult tbl d).1 d.requestId = none := by
  unfold handleCommandResult
  cases h : lookupT tbl d.requestId with
  | none => simpa using h
  | some e => simpa using lookupT_eraseT_self tbl d.requestId

theorem runCalls_fst (exec : σ → FunctionCall → σ × JSVal) (s : σ)
    (calls : List FunctionCall) :
    (runCalls exec s calls).1 = execStateAfter exec s calls := by
  induction calls generalizing s with
  | nil => rfl
  | cons c rest ih => simp [runCalls, execStateAfter, List.foldl_cons, ih]

theorem runCalls_length (exec : σ → FunctionCall → σ × JSVal) (s : σ)
    (calls : List FunctionCall) :
    (runCalls exec s calls).2.length = calls.length := by
  induction calls generalizing s with
  | nil => rfl
  | cons c rest ih => simp [runCalls, ih]

theorem runCalls_map_idname (exec : σ → FunctionCall → σ × JSVal) (s : σ)
    (calls : List FunctionCall) :
    (runCalls exec s calls).2.map (fun r => (r.id, r.name))
      = calls.map (fun c => (c.id, c.name)) := by
  induction calls generalizing s with
  | nil => rfl
  | cons c rest ih => simp [runCalls, ih]

theorem runCalls_get (exec : σ → FunctionCall → σ × JSVal) (s : σ)
    (calls : List FunctionCall) (i : Nat) (hi : i < calls.length)
    (hr : i < (runCalls exec s calls).2.length) :
    ((runCalls exec s calls).2.get ⟨i, hr⟩).result
      = (exec (execStateAfter exec s (calls.take i)) (calls.get ⟨i, hi⟩)).2 := by
  induction calls generalizing s i with
  | nil => exact absurd hi (by simp)
  | cons c rest ih =>
    cases i with
    | zero => simp [runCalls, execStateAfter]
    | succ j =>
      have hj : j < rest.length := by simpa using hi
      have hjr : j < (runCalls exec (exec s c).1 rest).2.length := by
        simpa [runCalls_length] using hj
      simpa [runCalls, execStateAfter, List.foldl_cons]
        using ih (exec s c).1 j hj hjr

theorem infix_of_append_append (a b c : String) :
    b.data <:+: (a ++ b ++ c).data := by
  refine ⟨a.data, c.data, ?_⟩
  simp [String.data_append]

/-! ## Claim theorems -/

/-- C1: for every pending RPC request (distributed tool call or Chrome
command), the table entry for its request ID is removed exactly once,
either by the first matching reply or by timer expiry; once settled, a
second matching reply finds no entry and changes nothing observable. -/
theorem claim_C1_pending_settled_exactly_once
    (tbl ctbl : Table PendingEntry) (d : ToolResultData)
    (cd : CommandResultData) (e ce : PendingEntry)
    (toolName serverIdOrName : String) (eff cto : Nat)
    (h : lookupT tbl d.requestId = some e)
    (hc : lookupT ctbl cd.requestId = some ce) :
    ((handleToolResult tbl d).2.isSome
      ∧ lookupT (handleToolResult tbl d).1 d.requestId = none
      ∧ handleToolResult (handleToolResult tbl d).1 d
          = ((handleToolResult tbl d).1, none)
      ∧ lookupT (toolTimeoutExpire tbl d.requestId toolName serverIdOrName eff).1
          d.requestId = none
      ∧ handleToolResult
            (toolTimeoutExpire tbl d.requestId toolName serverIdOrName eff).1 d
          = ((toolTimeoutExpire tbl d.requestId toolName serverIdOrName eff).1,
              none))
    ∧ ((handleCommandResult ctbl cd).2.isSome
      ∧ lookupT (handleCommandResult ctbl cd).1 cd.requestId = none
      ∧ handleCommandResult (handleCommandResult ctbl cd).1 cd
          = ((handleCommandResult ctbl cd).1, none)
      ∧ lookupT (chromeTimeoutExpire ctbl cd.requestId cto).1 cd.requestId = none
      ∧ handleCommandResult (chromeTimeoutExpire ctbl cd.requestId cto).1 cd
          = ((chromeTimeoutExpire ctbl cd.requestId cto).1, none)) := by
  refine ⟨⟨handleToolResult_found tbl d e h,
      handleToolResult_lookup_fst tbl d,
      handleToolResult_absent _ d (handleToolResult_lookup_fst tbl d),
      lookupT_eraseT_self tbl d.requestId,
      handleToolResult_absent _ d (lookupT_eraseT_self tbl d.requestId)⟩,
    handleCommandResult_found ctbl cd ce hc,
    handleCommandResult_lookup_fst ctbl cd,
    handleCommandResult_absent _ cd (handleCommandResult_lookup_fst ctbl cd),
    lookupT_eraseT_self ctbl cd.requestId,
    handleCommandResult_absent _ cd (lookupT_eraseT_self ctbl cd.requestId)⟩

/-- Witness for C1 at a one-entry table per channel. -/
theorem claim_C1_witness :
    lookupT [("r1", PendingEntry.mk 5)] "r1" = some (PendingEntry.mk 5)
    ∧ lookupT [("c1", PendingEntry.mk 6)] "c1" = some (PendingEntry.mk 6)
    ∧ handleToolResult
        (handleToolResult [("r1", PendingEntry.mk 5)]
          (ToolResultData.mk "r1" "success" (.str "ok") none)).1
        (ToolResultData.mk "r1" "success" (.str "ok") none)
      = ((handleToolResult [("r1", PendingEntry.mk 5)]
          (ToolResultData.mk "r1" "success" (.str "ok") none)).1, none) :=
  ⟨rfl, rfl,
    (claim_C1_pending_settled_exactly_once
      [("r1", PendingEntry.mk 5)] [("c1", PendingEntry.mk 6)]
      (ToolResultData.mk "r1" "success" (.str "ok") none)
      (CommandResultData.mk "c1" "success" (some (.str "v")) none none)
      (PendingEntry.mk 5) (PendingEntry.mk 6)
      "toolX" "dist-1" 60000 10000 rfl rfl).1.2.2.1⟩

/-- C9: a client frame that fails structured-data parsing, or whose
injection raises, is forwarded upstream as the exact original frame —
never dropped or altered. -/
theorem claim_C9_fail_open_forwarding (parse : Frame → Option ClientMsg)
    (inj : Setup → Except String Setup) (frame : Frame) :
    (parse frame = none → handleClientMessage parse inj frame = [.raw frame])
    ∧ (∀ msg st e, parse frame = some msg → msg.setup = some st →
        inj st = .error e →
        handleClientMessage parse inj frame = [.raw frame]) := by
  constructor
  · intro h
    simp [handleClientMessage, h]
  · intro msg st e hp hs hi
    simp [handleClientMessage, hp, hs, hi]

/-- Witness for C9 on a binary frame that no parse accepts. -/
theorem claim_C9_witness :
    ((fun _ : Frame => (none : Option ClientMsg)) (Frame.binary [0, 255])
        = none)
    ∧ handleClientMessage (fun _ => none) (fun st => .ok st)
        (Frame.binary [0, 255])
      = [.raw (Frame.binary [0, 255])] :=
  ⟨rfl, (claim_C9_fail_open_forwarding (fun _ => none) (fun st => .ok st)
    (Frame.binary [0, 255])).1 rfl⟩

/-- C10: with no configured key (unset or empty), every upgrade request is
destroyed, even on a valid template path carrying a key. -/
theorem claim_C10_no_key_rejects_all (cfg : UpgradeConfig) (pathname : String)
    (h : cfg.vcpKey = none ∨ cfg.vcpKey = some "") :
    routeUpgrade cfg pathname = .destroyed := by
  unfold routeUpgrade
  cases hm : pathMatch pathname with
  | none => rfl
  | some p =>
    obtain ⟨ty, k⟩ := p
    have hfalse : jsTruthyOpt cfg.vcpKey = false := by
      rcases h with h | h <;> simp [jsTruthyOpt, h]
    simp [hfalse]

/-- Witness for C10: a well-formed VCPLog path is still destroyed. -/
theorem claim_C10_witness :
    ((UpgradeConfig.mk none).vcpKey = none
        ∨ (UpgradeConfig.mk none).vcpKey = some "")
    ∧ routeUpgrade (UpgradeConfig.mk none) "/VCPlog/VCP_Key=secret"
        = .destroyed :=
  ⟨Or.inl rfl,
    claim_C10_no_key_rejects_all (UpgradeConfig.mk none)
      "/VCPlog/VCP_Key=secret" (Or.inl rfl)⟩

/-- C6 counterexample: the client closing with code 4001 and reason
`bye` makes the session close the upstream with a bare `close()` — the
code and reason are not preserved in that direction, contrary to the
claim. -/
theorem claim_C6_counterexample :
    (onSocketClose WS_OPEN (.clientClosed 4001 "bye")).upstreamClose
        = some CloseCall.plain
    ∧ some CloseCall.plain ≠ some (CloseCall.withCode 4001 "bye") := by
  exact ⟨rfl, by decide⟩

/-- C6 amended: an upstream close is propagated to the client with the
same code and reason; a client close triggers a bare `close()` of the
upstream (no code or reason forwarded), and only while the upstream
socket is open. -/
theorem claim_C6_close_propagation (upstreamReadyState code : Nat)
    (reason : String) :
    onSocketClose upstreamReadyState (.upstreamClosed code reason)
      = { clientClose := some (.withCode code reason), upstreamClose := none }
    ∧ (upstreamReadyState = WS_OPEN →
        onSocketClose upstreamReadyState (.clientClosed code reason)
          = { clientClose := none, upstreamClose := some .plain })
    ∧ (upstreamReadyState ≠ WS_OPEN →
        onSocketClose upstreamReadyState (.clientClosed code reason)
          = { clientClose := none, upstreamClose := none }) := by
  refine ⟨rfl, ?_, ?_⟩
  · intro h
    simp [onSocketClose, h, WS_OPEN]
  · intro h
    have : (upstreamReadyState == WS_OPEN) = false := by
      simpa using h
    simp [onSocketClose, this]

/-- Witness for C6 at code 1000, reason `done`, upstream open. -/
theorem claim_C6_witness :
    onSocketClose WS_OPEN (.upstreamClosed 1000 "done")
      = { clientClose := some (.withCode 1000 "done"), upstreamClose := none }
    ∧ onSocketClose WS_OPEN (.clientClosed 1000 "done")
      = { clientClose := none, upstreamClose := some .plain } :=
  ⟨(claim_C6_close_propagation WS_OPEN 1000 "done").1,
    (claim_C6_close_propagation WS_OPEN 1000 "done").2.1 rfl⟩

/-- C2: an upstream frame parsing to a tool-call batch with at least one
function call executes the calls strictly sequentially in batch order
(state threaded through `exec`), sends exactly one aggregated
toolResponse frame upstream with one `{id, name, response:{result}}`
entry per call in the same order, and sends nothing to the downstream
client. -/
theorem claim_C2_toolcall_batch {σ : Type} (parse : Frame → Option UpstreamMsg)
    (exec : σ → FunctionCall → σ × JSVal) (s : σ) (frame : Frame)
    (msg : UpstreamMsg) (tc : ToolCallField) (calls : List FunctionCall)
    (hp : parse frame = some msg) (ht : msg.toolCall = some tc)
    (hf : tc.functionCalls = some calls) (hne : calls ≠ []) :
    handleUpstreamMessage parse exec s frame
      = (execStateAfter exec s calls,
          [.toolResponse (runCalls exec s calls).2], [])
    ∧ (runCalls exec s calls).2.length = calls.length
    ∧ (runCalls exec s calls).2.map (fun r => (r.id, r.name))
        = calls.map (fun c => (c.id, c.name))
    ∧ ∀ i (hi : i < calls.length)
        (hr : i < (runCalls exec s calls).2.length),
        ((runCalls exec s calls).2.get ⟨i, hr⟩).result
          = (exec (execStateAfter exec s (calls.take i))
              (calls.get ⟨i, hi⟩)).2 := by
  have hlen : calls.length > 0 := List.length_pos.mpr hne
  refine ⟨?_, runCalls_length exec s calls, runCalls_map_idname exec s calls,
    fun i hi hr => runCalls_get exec s calls i hi hr⟩
  simp only [handleUpstreamMessage, hp, ht, hf]
  rw [if_pos hlen, runCalls_fst]

/-- Witness for C2 on a one-call batch through a counting facade. -/
theorem claim_C2_witness :
    c2parse (Frame.text "TC") = some c2msg
    ∧ c2msg.toolCall = some { functionCalls := some c2calls }
    ∧ c2calls ≠ []
    ∧ handleUpstreamMessage c2parse c2exec 0 (Frame.text "TC")
      = (execStateAfter c2exec 0 c2calls,
          [.toolResponse (runCalls c2exec 0 c2calls).2], []) :=
  ⟨rfl, rfl, by decide,
    (claim_C2_toolcall_batch c2parse c2exec 0 (Frame.text "TC") c2msg
      { functionCalls := some c2calls } c2calls rfl rfl rfl (by decide)).1⟩

/-- C3 counterexample: the session has no setup-interception flag — in a
session whose client sends two setup frames, the transform also runs on
the second frame, whose upstream send is the transformed setup frame and
not the untouched original. -/
theorem claim_C3_counterexample :
    sessionUpstreamSends c3parse c3inj [Frame.text "SETUP", Frame.text "SETUP"]
      = [ClientUpSend.setupFrame c3marked, ClientUpSend.setupFrame c3marked]
    ∧ ClientUpSend.setupFrame c3marked ≠ ClientUpSend.raw (Frame.text "SETUP") := by
  exact ⟨rfl, by decide⟩

/-- C3 amended: the context-injection transform runs on every inbound
client frame that parses with a setup field, regardless of how many
frames (setup-bearing or not) came before it in the session. -/
theorem claim_C3_setup_every_time (parse : Frame → Option ClientMsg)
    (inj : Setup → Except String Setup) (earlier : List Frame) (frame : Frame)
    (msg : ClientMsg) (st st2 : Setup)
    (hp : parse frame = some msg) (hs : msg.setup = some st)
    (hi : inj st = .ok st2) :
    handleClientMessage parse inj frame = [.setupFrame st2]
    ∧ sessionUpstreamSends parse inj (earlier ++ [frame])
        = sessionUpstreamSends parse inj earlier ++ [.setupFrame st2] := by
  have h1 : handleClientMessage parse inj frame = [.setupFrame st2] := by
    simp [handleClientMessage, hp, hs, hi]
  refine ⟨h1, ?_⟩
  simp [sessionUpstreamSends, h1]

/-- Witness for C3 after a one-frame prefix. -/
theorem claim_C3_witness :
    c3parse (Frame.text "SETUP") = some { setup := some c3setup }
    ∧ c3inj c3setup = .ok c3marked
    ∧ handleClientMessage c3parse c3inj (Frame.text "SETUP")
        = [.setupFrame c3marked] :=
  ⟨rfl, rfl,
    (claim_C3_setup_every_time c3parse c3inj [Frame.text "SETUP"]
      (Frame.text "SETUP") { setup := some c3setup } c3setup c3marked
      rfl rfl rfl).1⟩

/-- C7: a `register_tools` message filters the reserved
`internal_request_file` name out before the catalog registration, and
replaces (not appends to) the server's stored tool-name list with the
filtered names; a second registration overwrites the first. -/
theorem claim_C7_register_tools (servers : Table ServerEntry)
    (serverId : String) (tools tools2 : List ToolDecl) (entry : ServerEntry)
    (h : lookupT servers serverId = some entry) :
    ∃ ext, handleRegisterTools servers serverId tools
        = (setT servers serverId { entry with tools := ext.map (·.name) },
            some ext)
      ∧ ext = tools.filter (fun t => t.name != "internal_request_file")
      ∧ (∀ t ∈ ext, t.name ≠ "internal_request_file")
      ∧ lookupT (handleRegisterTools servers serverId tools).1 serverId
          = some { entry with tools := ext.map (·.name) }
      ∧ ∀ ext2,
          ext2 = tools2.filter (fun t => t.name != "internal_request_file") →
          lookupT (handleRegisterTools
              (handleRegisterTools servers serverId tools).1 serverId tools2).1
              serverId
            = some { entry with tools := ext2.map (·.name) } := by
  refine ⟨tools.filter (fun t => t.name != "internal_request_file"),
    ?_, rfl, ?_, ?_, ?_⟩
  · simp [handleRegisterTools, h]
  · intro t ht
    have := List.of_mem_filter ht
    simpa using this
  · simp only [handleRegisterTools, h]
    exact lookupT_setT_self servers serverId _
  · intro ext2 hext2
    subst hext2
    have h1 : lookupT (handleRegisterTools servers serverId tools).1 serverId
        = some { entry with
            tools := (tools.filter
              (fun t => t.name != "internal_request_file")).map (·.name) } := by
      simp only [handleRegisterTools, h]
      exact lookupT_setT_self servers serverId _
    revert h1
    generalize (handleRegisterTools servers serverId tools).1 = tbl1
    intro h1
    simp only [handleRegisterTools, h1]
    exact lookupT_setT_self _ serverId _

/-- Witness for C7: registering {internal_request_file, A} then {B}
leaves exactly B stored. -/
theorem claim_C7_witness :
    lookupT [("dist-1", ServerEntry.mk 1 none [])] "dist-1"
        = some (ServerEntry.mk 1 none [])
    ∧ lookupT (handleRegisterTools
        (handleRegisterTools [("dist-1", ServerEntry.mk 1 none [])] "dist-1"
          [ToolDecl.mk "internal_request_file" .null, ToolDecl.mk "A" .null]).1
        "dist-1" [ToolDecl.mk "B" .null]).1 "dist-1"
      = some (ServerEntry.mk 1 none ["B"]) := by
  obtain ⟨ext, h1, h2, h3, h4, h5⟩ :=
    claim_C7_register_tools [("dist-1", ServerEntry.mk 1 none [])] "dist-1"
      [ToolDecl.mk "internal_request_file" .null, ToolDecl.mk "A" .null]
      [ToolDecl.mk "B" .null] (ServerEntry.mk 1 none []) rfl
  exact ⟨rfl, h5 [ToolDecl.mk "B" .null] rfl⟩

/-- C8: the injection transform leaves every field other than
`systemInstruction` and `tools` unchanged, and the resulting
system-instruction parts list is the injected context block followed by
every original caller-provided part in its original order. -/
theorem claim_C8_injection_preserves_setup (env : VCPEnv)
    (vcpTools : List FuncDecl) (s : Setup) :
    (injectVCPContext env vcpTools s).rest = s.rest
    ∧ ∃ injected, setupPartsOf (injectVCPContext env vcpTools s)
        = SetupPart.text injected :: setupPartsOf s := by
  refine ⟨rfl, vcpPromptText env.timeNow (jsOrS env.varCity "Unknown City")
    (jsOrS env.varUser "User") (jsOrS env.weatherInfo "Weather unavailable"),
    ?_⟩
  simp [injectVCPContext, setupPartsOf]

/-- C4 counterexample: with secret `k`, the path `/VCPlog/VCP_Key=%6b`
matches the VCPLog template and its key URL-decodes to `k`, yet the
router destroys the socket — the comparison is literal, the key segment
is never URL-decoded. -/
theorem claim_C4_counterexample :
    routeUpgrade { vcpKey := some "k" } "/VCPlog/VCP_Key=%6b" = .destroyed
    ∧ pathMatch "/VCPlog/VCP_Key=%6b" = some (.VCPLog, "%6b")
    ∧ specUrlDecode "%6b" = "k" := by
  exact ⟨by decide, by decide, by decide⟩

/-- C4 amended: the router accepts an upgrade exactly when the path
matches one of the three templates and the raw, still percent-encoded
key segment literally (case-sensitively) equals the configured
non-empty secret; otherwise the socket is destroyed. -/
theorem claim_C4_route_literal_key (cfg : UpgradeConfig) (pathname : String)
    (ty : ClientType) (k : String) :
    routeUpgrade cfg pathname = .accepted ty k
      ↔ pathMatch pathname = some (ty, k) ∧ cfg.vcpKey = some k ∧ k ≠ "" := by
  unfold routeUpgrade
  cases hm : pathMatch pathname with
  | none => simp
  | some p =>
    obtain ⟨ty0, k0⟩ := p
    dsimp only
    by_cases hcond : (jsTruthyOpt cfg.vcpKey && (cfg.vcpKey == some k0)) = true
    · rw [if_pos hcond]
      obtain ⟨htruthy, hbeq⟩ := Bool.and_eq_true_iff.mp hcond
      have h1 : cfg.vcpKey = some k0 := by simpa using hbeq
      have h2 : k0 ≠ "" := by
        rw [h1] at htruthy
        simpa [jsTruthyOpt] using htruthy
      constructor
      · intro hacc
        obtain ⟨hty, hk⟩ := by
          simpa [UpgradeResult.accepted.injEq] using hacc
        subst hty
        subst hk
        exact ⟨rfl, h1, h2⟩
      · rintro ⟨hsome, hk, hne⟩
        obtain ⟨hty, hkk⟩ := by
          simpa [Prod.mk.injEq] using hsome
        subst hty
        subst hkk
        rfl
    · rw [if_neg hcond]
      constructor
      · intro hd
        exact absurd hd (by simp)
      · rintro ⟨hsome, hk, hne⟩
        obtain ⟨hty, hkk⟩ := by
          simpa [Prod.mk.injEq] using hsome
        subst hkk
        exact absurd (by simp [jsTruthyOpt, hk, hne]) hcond

/-- Witness for C4: the literal key is accepted on the VCPLog path. -/
theorem claim_C4_witness :
    routeUpgrade { vcpKey := some "k" } "/VCPlog/VCP_Key=k"
      = .accepted ClientType.VCPLog "k" :=
  (claim_C4_route_literal_key { vcpKey := some "k" } "/VCPlog/VCP_Key=k"
    ClientType.VCPLog "k").mpr ⟨by decide, rfl, by decide⟩

/-- C5: `executeDistributedTool` resolves its target by server ID first
with display-name fallback; with no resolvable or open server it rejects
synchronously with nothing sent and no table change; the effective
timeout is the caller's value, else the manifest timeout, else 60s; on
expiry the rejection message names the tool and the elapsed seconds and
the pending table no longer holds the request ID. -/
theorem claim_C5_executeDistributedTool (getPluginTimeout : String → Option Nat)
    (servers : Table ServerEntry) (tbl : Table PendingEntry)
    (sid toolName : String) (args : JSVal) (timeout : Option Nat)
    (requestId : String) (timerId : Nat) :
    ((∀ s, lookupT servers sid = some s → resolveServer servers sid = some s)
      ∧ (resolveServer servers sid = none →
          ∀ p ∈ servers, p.1 ≠ sid ∧ p.2.serverName ≠ some sid))
    ∧ ((resolveServer servers sid = none
        ∨ ∃ s, resolveServer servers sid = some s ∧ s.wsReadyState ≠ WS_OPEN) →
        executeDistributedTool getPluginTimeout servers tbl sid toolName args
            timeout requestId timerId
          = .error ("Distributed server " ++ sid
              ++ " is not connected or ready."))
    ∧ (∀ newTbl payload eff,
        executeDistributedTool getPluginTimeout servers tbl sid toolName args
            timeout requestId timerId
          = .ok (newTbl, payload, eff) →
        (∀ t, timeout = some t → eff = t)
        ∧ (timeout = none → getPluginTimeout toolName = none → eff = 60000)
        ∧ (∀ m, timeout = none → getPluginTimeout toolName = some m →
            m ≠ 0 → eff = m))
    ∧ (∀ eff,
        lookupT (toolTimeoutExpire tbl requestId toolName sid eff).1 requestId
            = none
        ∧ ∃ msg, (toolTimeoutExpire tbl requestId toolName sid eff).2
              = .rejected msg
            ∧ toolName.data <:+: msg.data
            ∧ (toString (eff / 1000)).data <:+: msg.data) := by
  refine ⟨⟨?_, ?_⟩, ?_, ?_, ?_⟩
  · intro s hs
    simp [resolveServer, hs]
  · intro hnone p hp
    have hl : lookupT servers sid = none := by
      cases hl : lookupT servers sid with
      | none => rfl
      | some s => simp [resolveServer, hl] at hnone
    have hf : servers.find? (fun p => p.2.serverName == some sid) = none := by
      simpa [resolveServer, hl] using hnone
    refine ⟨(lookupT_eq_none_iff servers sid).mp hl p hp, ?_⟩
    have := List.find?_eq_none.mp hf p hp
    simpa using this
  · intro hbad
    rcases hbad with hnone | ⟨s, hs, hready⟩
    · simp [executeDistributedTool, hnone]
    · have hfalse : (s.wsReadyState == WS_OPEN) = false := by
        simpa using hready
      simp [executeDistributedTool, hs, hfalse]
  · intro newTbl payload eff hok
    simp only [executeDistributedTool] at hok
    cases hr : resolveServer servers sid with
    | none => rw [hr] at hok; exact absurd hok (by simp)
    | some s =>
      rw [hr] at hok
      dsimp only at hok
      by_cases hready : (s.wsReadyState == WS_OPEN) = true
      · rw [if_pos hready] at hok
        injection hok with h3
        have heff : eff
            = timeout.getD (jsOrNat (getPluginTimeout toolName) 60000) :=
          (congrArg (fun q => q.2.2) h3).symm
        refine ⟨?_, ?_, ?_⟩
        · intro t ht
          rw [ht] at heff
          simpa using heff
        · intro ht hplug
          rw [ht, hplug] at heff
          simpa [jsOrNat] using heff
        · intro m ht hplug hm0
          rw [ht, hplug] at heff
          simpa [jsOrNat, hm0] using heff
      · rw [if_neg hready] at hok
        exact absurd hok (by simp)
  · intro eff
    refine ⟨lookupT_eraseT_self tbl requestId, _, rfl, ?_, ?_⟩
    · refine ⟨"Request to distributed tool ".data,
        (" on server " ++ sid ++ " timed out after "
          ++ toString (eff / 1000) ++ "s.").data, ?_⟩
      simp [String.data_append, List.append_assoc]
    · refine ⟨("Request to distributed tool " ++ toolName ++ " on server "
          ++ sid ++ " timed out after ").data, "s.".data, ?_⟩
      simp [String.data_append, List.append_assoc]

/-- Witness for C5: after a timeout expiry the request ID is gone. -/
theorem claim_C5_witness :
    lookupT (toolTimeoutExpire [("rq", PendingEntry.mk 3)] "rq" "toolX"
      "dist-1" 60000).1 "rq" = none :=
  ((claim_C5_executeDistributedTool (fun _ => none)
    [("dist-1", ServerEntry.mk 1 (some "alpha") [])]
    [("rq", PendingEntry.mk 3)] "dist-1" "toolX" .null none "rq" 3).2.2.2
    60000).1

end VCP
